import Mathlib

/-!
Verification of the BeCoin economy core against its natural-language
specification.  The definitions below are a shallow embedding of the
TypeScript sources:

* `BecoinEconomy` (treasury ledger: `getSnapshot`, `reserveBudget`,
  `commitReservation`, `cancelReservation`, `recordRevenue`),
* `PatternAnalyzer` (pattern merging and confidence filtering),
* `ProposalGenerator` (cost estimation and budget/treasury gating),
* `CEODiscoverySystem` (discovery pipeline and proposal prioritisation),
* `FeedbackLoop` (feedback collection and prediction accuracy).

Currency amounts, scores and confidences are JavaScript `number`s in the
source; they are modelled as rationals (`ℚ`) with exact arithmetic, and
`Math.round` is modelled by `jsRound`.  Timestamps (`Date`) are modelled as
integers, and the nondeterministic identifier/clock inputs (`nanoid()`,
`Date.now()`) are passed in as explicit parameters.  File I/O is modelled by
passing the persisted record in and out of each operation; a thrown `Error`
is modelled by `Except`.
-/

/-- JavaScript `Math.round`: rounds to the nearest integer, halves toward
positive infinity, i.e. `⌊x + 1/2⌋`. -/
def jsRound (x : ℚ) : ℤ :=
  ⌊x + 1/2⌋

deriving instance DecidableEq for Except

namespace BecoinEconomy

/-- Status of a treasury reservation (`TreasuryReservation.status`). -/
inductive ReservationStatus where
  | reserved
  | committed
  | cancelled
deriving DecidableEq

/-- `TreasuryReservation` from `becoin-economy.ts`. -/
structure TreasuryReservation where
  id : String
  amount : ℚ
  reason : String
  status : ReservationStatus
  createdAt : ℤ
  committedAt : Option ℤ
  actualCost : Option ℚ
deriving DecidableEq

/-- Kind of a treasury transaction (`TreasuryTransaction.type`). -/
inductive TransactionType where
  | expense
  | revenue
deriving DecidableEq

/-- `TreasuryTransaction` from `becoin-economy.ts`. -/
structure TreasuryTransaction where
  id : String
  type : TransactionType
  amount : ℚ
  description : String
  createdAt : ℤ
  reservationId : Option String
deriving DecidableEq

/-- The `metrics` sub-record of the treasury file.  `runway` is `Infinity`
in JavaScript when the burn rate is not positive; that value is modelled as
`none`. -/
structure TreasuryMetrics where
  burnRate : ℚ
  runway : Option ℚ
deriving DecidableEq

/-- The persisted `TreasuryFile` record. -/
structure TreasuryFile where
  balance : ℚ
  startCapital : ℚ
  metrics : TreasuryMetrics
  reservations : List TreasuryReservation
  transactions : List TreasuryTransaction
deriving DecidableEq

/-- `TreasurySnapshot`: the derived view returned by `getSnapshot`. -/
structure TreasurySnapshot where
  balance : ℚ
  startCapital : ℚ
  burnRate : ℚ
  runway : Option ℚ
  reserved : ℚ
  availableBalance : ℚ
deriving DecidableEq

/-- The errors thrown by the treasury operations.  Each constructor stands
for one `throw new Error(...)` site; `allocationExceeded amount maxAllocation`
is the error whose message reads
`Requested amount {amount} exceeds 20% allocation ({maxAllocation})`. -/
inductive TreasuryError where
  | nonPositiveReservation
  | insufficientAvailable
  | allocationExceeded (amount maxAllocation : ℚ)
  | reservationNotFound (reservationId : String)
  | insufficientBalance
  | nonPositiveRevenue
deriving DecidableEq

/-- True exactly for the error raised at the 20%-allocation cap, whose
message mentions the allocation limit. -/
def mentionsAllocationLimit : TreasuryError → Bool
  | .allocationExceeded _ _ => true
  | _ => false

/-- `calculateRunway`: `Infinity` (modelled as `none`) when the burn rate is
not positive, else `Math.round((balance / burnRate) * 100) / 100`. -/
def calculateRunway (balance burnRate : ℚ) : Option ℚ :=
  if burnRate ≤ 0 then none
  else some ((jsRound ((balance / burnRate) * 100) : ℚ) / 100)

/-- Sum of the amounts of the reservations whose status is `reserved`
(the `reserved` accumulator computed in `getSnapshot` and `reserveBudget`). -/
def reservedSum (reservations : List TreasuryReservation) : ℚ :=
  ((reservations.filter fun r => decide (r.status = ReservationStatus.reserved)).map
    fun r => r.amount).sum

/-- The `available` value `Math.max(0, balance - reserved)` computed in
`getSnapshot` and `reserveBudget`. -/
def available (data : TreasuryFile) : ℚ :=
  max 0 (data.balance - reservedSum data.reservations)

/-- `BecoinEconomy.getSnapshot` (lines 709–726). -/
def getSnapshot (data : TreasuryFile) : TreasurySnapshot :=
  { balance := data.balance
    startCapital := data.startCapital
    burnRate := data.metrics.burnRate
    runway := calculateRunway data.balance data.metrics.burnRate
    reserved := reservedSum data.reservations
    availableBalance := available data }

/-- `BecoinEconomy.reserveBudget` (lines 728–766).  `newId` stands for the
generated `nanoid(12)` and `now` for `new Date()`. -/
def reserveBudget (amount : ℚ) (reason newId : String) (now : ℤ) (data : TreasuryFile) :
    Except TreasuryError (TreasuryReservation × TreasuryFile) :=
  if amount ≤ 0 then
    .error .nonPositiveReservation
  else if available data < amount then
    .error .insufficientAvailable
  else if available data * (1/5) < amount ∧ 0 < available data then
    .error (.allocationExceeded amount (available data * (1/5)))
  else
    .ok (⟨newId, amount, reason, .reserved, now, none, none⟩,
      { data with
          reservations :=
            data.reservations ++ [⟨newId, amount, reason, .reserved, now, none, none⟩] })

/-- The predicate used by `commitReservation` / `cancelReservation` to locate
the reservation: `r.id === reservationId && r.status === 'reserved'`. -/
def reservedMatch (reservationId : String) (r : TreasuryReservation) : Bool :=
  decide (r.id = reservationId ∧ r.status = ReservationStatus.reserved)

/-- Replace the first element satisfying `p` by its image under `f`,
modelling the in-place mutation of the object returned by
`Array.prototype.find`. -/
def updateFirst (p : α → Bool) (f : α → α) : List α → List α
  | [] => []
  | x :: xs => if p x then f x :: xs else x :: updateFirst p f xs

/-- The treasury file produced by a successful `commitReservation` with
final cost `cost`: the located reservation transitions to `committed`, the
balance is clamped at `Math.max(0, balance - cost)`, the runway is
recomputed, and one expense transaction referencing the reservation is
appended. -/
def commitState (reservationId : String) (cost : ℚ) (txId : String) (now : ℤ)
    (reason : String) (data : TreasuryFile) : TreasuryFile :=
  { data with
      reservations :=
        updateFirst (reservedMatch reservationId)
          (fun r => { r with status := .committed, committedAt := some now,
                             actualCost := some cost })
          data.reservations
      balance := max 0 (data.balance - cost)
      metrics :=
        { burnRate := data.metrics.burnRate
          runway := calculateRunway (max 0 (data.balance - cost)) data.metrics.burnRate }
      transactions :=
        data.transactions ++ [⟨txId, .expense, cost, reason, now, some reservationId⟩] }

/-- `BecoinEconomy.commitReservation` (lines 768–809).  `txId` stands for the
generated transaction `nanoid(12)` and `now` for `new Date()`. -/
def commitReservation (reservationId : String) (actualCost : Option ℚ) (txId : String)
    (now : ℤ) (data : TreasuryFile) :
    Except TreasuryError (TreasurySnapshot × TreasuryFile) :=
  match data.reservations.find? (reservedMatch reservationId) with
  | none => .error (.reservationNotFound reservationId)
  | some reservation =>
    if data.balance < actualCost.getD reservation.amount then
      .error .insufficientBalance
    else
      .ok (getSnapshot
            (commitState reservationId (actualCost.getD reservation.amount) txId now
              reservation.reason data),
           commitState reservationId (actualCost.getD reservation.amount) txId now
             reservation.reason data)

/-- `BecoinEconomy.cancelReservation` (lines 811–830): the reservation
transitions to `cancelled` with `actualCost = 0`; the balance is unchanged. -/
def cancelReservation (reservationId : String) (now : ℤ) (data : TreasuryFile) :
    Except TreasuryError (TreasurySnapshot × TreasuryFile) :=
  match data.reservations.find? (reservedMatch reservationId) with
  | none => .error (.reservationNotFound reservationId)
  | some _ =>
    let data' :=
      { data with
          reservations :=
            updateFirst (reservedMatch reservationId)
              (fun r => { r with status := .cancelled, committedAt := some now,
                                 actualCost := some 0 })
              data.reservations }
    .ok (getSnapshot data', data')

/-- `BecoinEconomy.recordRevenue` (lines 832–855). -/
def recordRevenue (amount : ℚ) (description txId : String) (now : ℤ) (data : TreasuryFile) :
    Except TreasuryError (TreasurySnapshot × TreasuryFile) :=
  if amount ≤ 0 then
    .error .nonPositiveRevenue
  else
    let data' :=
      { data with
          balance := data.balance + amount
          metrics :=
            { burnRate := data.metrics.burnRate
              runway := calculateRunway (data.balance + amount) data.metrics.burnRate }
          transactions :=
            data.transactions ++ [⟨txId, .revenue, amount, description, now, none⟩] }
    .ok (getSnapshot data', data')

/-- The defaults materialised by `loadTreasuryFile` (lines 857–880) on first
access: balance and starting capital 100,000, burn rate 250, runway 400. -/
def defaultTreasuryFile : TreasuryFile :=
  { balance := 100000
    startCapital := 100000
    metrics := { burnRate := 250, runway := some 400 }
    reservations := []
    transactions := [] }

/-- Treasury states reachable from the bootstrapped default state by any
sequence of successful `reserveBudget`, `commitReservation`,
`cancelReservation` and `recordRevenue` operations. -/
inductive Reachable : TreasuryFile → Prop where
  | init : Reachable defaultTreasuryFile
  | reserve (amount : ℚ) (reason newId : String) (now : ℤ) {s : TreasuryFile}
      {r : TreasuryReservation} {s' : TreasuryFile} :
      Reachable s → reserveBudget amount reason newId now s = .ok (r, s') → Reachable s'
  | commit (reservationId : String) (actualCost : Option ℚ) (txId : String) (now : ℤ)
      {s : TreasuryFile} {snap : TreasurySnapshot} {s' : TreasuryFile} :
      Reachable s → commitReservation reservationId actualCost txId now s = .ok (snap, s') →
      Reachable s'
  | cancel (reservationId : String) (now : ℤ) {s : TreasuryFile}
      {snap : TreasurySnapshot} {s' : TreasuryFile} :
      Reachable s → cancelReservation reservationId now s = .ok (snap, s') → Reachable s'
  | revenue (amount : ℚ) (description txId : String) (now : ℤ) {s : TreasuryFile}
      {snap : TreasurySnapshot} {s' : TreasuryFile} :
      Reachable s → recordRevenue amount description txId now s = .ok (snap, s') →
      Reachable s'

end BecoinEconomy

namespace PatternAnalyzer

/-- The five categories of a behavioural `UserPattern` (`UserPattern.type`
in `pattern-analyzer.ts`). -/
inductive PatternType where
  | repetitive
  | error
  | bottleneck
  | workflow
  | search
deriving DecidableEq

/-- `UserPattern` from `pattern-analyzer.ts`.  The free-form `metadata`
record is omitted: no operation in scope reads it. -/
structure UserPattern where
  id : String
  type : PatternType
  action : String
  frequency : ℚ
  timeSpent : ℚ
  confidence : ℚ
  context : List String
  firstSeen : ℤ
  lastSeen : ℤ
deriving DecidableEq

/-- The merge key `` `${pattern.type}-${pattern.action}` `` used by
`mergePatterns`.  The five type names contain no dash, so the string key
identifies exactly the pair (type, action). -/
def keyOf (pattern : UserPattern) : PatternType × String :=
  (pattern.type, pattern.action)

/-- One merge of an incoming pattern into the existing entry of its key
(the mutation in `mergePatterns`, lines 1178–1183): frequency and time
spent are summed, confidence takes the maximum, and `lastSeen` is
overwritten with the incoming pattern's `lastSeen`. -/
def mergeCombine (existing incoming : UserPattern) : UserPattern :=
  { existing with
      frequency := existing.frequency + incoming.frequency
      timeSpent := existing.timeSpent + incoming.timeSpent
      confidence := max existing.confidence incoming.confidence
      lastSeen := incoming.lastSeen }

/-- One step of `mergePatterns`' loop: if the accumulated map (modelled as
a list in insertion order, its keys distinct) already holds the pattern's
key, merge into that entry in place, otherwise append a fresh entry. -/
def mergeStep (acc : List UserPattern) (pattern : UserPattern) : List UserPattern :=
  if acc.any fun q => decide (keyOf q = keyOf pattern) then
    acc.map fun q => if keyOf q = keyOf pattern then mergeCombine q pattern else q
  else
    acc ++ [pattern]

/-- `PatternAnalyzer.mergePatterns` (lines 1171–1190): fold all patterns
into a `Map` keyed by `(type, action)`, in input order, and return the
entries in insertion order. -/
def mergePatterns (patterns : List UserPattern) : List UserPattern :=
  patterns.foldl mergeStep []

/-- `PatternAnalyzer.analyze` (lines 964–991), with the per-source log
reading abstracted to its outcome: `collected` is the pooled list of
per-source patterns (memory, commands, file operations, swarm logs, in
that order).  The pooled list is merged and then filtered to
`confidence ≥ minConfidence`. -/
def analyze (collected : List UserPattern) (minConfidence : ℚ) : List UserPattern :=
  (mergePatterns collected).filter fun p => decide (minConfidence ≤ p.confidence)

/-- Specification-side merge of one key group: fold the whole group with
`mergeCombine`, starting from its first element.  `mergePatterns` is proved
to agree with this on every key. -/
def mergeGroup : List UserPattern → List UserPattern
  | [] => []
  | p :: rest => [rest.foldl mergeCombine p]

end PatternAnalyzer

namespace Discovery

open PatternAnalyzer

/-- The four pain-point categories (`PainPoint.type` in
`pattern-analyzer.ts`). -/
inductive PainPointType where
  | repetitive_task
  | recurring_error
  | workflow_bottleneck
  | manual_process
deriving DecidableEq

/-- Pain-point severity. -/
inductive Severity where
  | low
  | medium
  | high
  | critical
deriving DecidableEq

/-- `PainPoint` from `pattern-analyzer.ts`. -/
structure PainPoint where
  id : String
  type : PainPointType
  description : String
  severity : Severity
  timeCost : ℚ
  automationPotential : ℚ
  relatedPatterns : List String
deriving DecidableEq

/-- `CEODiscoverySystem.calculateSeverity`: score = frequency × time spent ×
confidence; critical above 1000, high above 500, medium above 200, else
low. -/
def calculateSeverity (pattern : UserPattern) : Severity :=
  if 1000 < pattern.frequency * pattern.timeSpent * pattern.confidence then .critical
  else if 500 < pattern.frequency * pattern.timeSpent * pattern.confidence then .high
  else if 200 < pattern.frequency * pattern.timeSpent * pattern.confidence then .medium
  else .low

/-- The pain point produced from one pattern by one branch of
`CEODiscoverySystem.identifyPainPoints`, if any: repetitive patterns with
frequency above 5, error patterns with frequency above 3 (severity fixed to
high, time cost doubled), bottleneck patterns with more than 60 minutes
spent (severity fixed to medium).  `workflow` and `search` patterns yield
none.  `now` stands for `Date.now()` and `n` for the running index used in
the generated identifier. -/
def classifyPattern (now : ℤ) (n : ℕ) (pattern : UserPattern) : Option PainPoint :=
  if pattern.type = PatternType.repetitive ∧ 5 < pattern.frequency then
    let freq := pattern.frequency
    let act := pattern.action
    some
      { id := s!"pain-{now}-{n}"
        type := .repetitive_task
        description := s!"User repeats \"{act}\" {freq}x/week"
        severity := calculateSeverity pattern
        timeCost := pattern.timeSpent
        automationPotential := 9/10
        relatedPatterns := [pattern.id] }
  else if pattern.type = PatternType.error ∧ 3 < pattern.frequency then
    let act := pattern.action
    some
      { id := s!"pain-{now}-{n}"
        type := .recurring_error
        description := s!"Recurring error: {act}"
        severity := .high
        timeCost := pattern.timeSpent * 2
        automationPotential := 85/100
        relatedPatterns := [pattern.id] }
  else if pattern.type = PatternType.bottleneck ∧ 60 < pattern.timeSpent then
    let act := pattern.action
    some
      { id := s!"pain-{now}-{n}"
        type := .workflow_bottleneck
        description := s!"Bottleneck in: {act}"
        severity := .medium
        timeCost := pattern.timeSpent
        automationPotential := 3/4
        relatedPatterns := [pattern.id] }
  else
    none

/-- `CEODiscoverySystem.identifyPainPoints` (lines 141–186): each pattern
yields at most one pain point, accumulated in input order. -/
def identifyPainPoints (now : ℤ) (patterns : List UserPattern) : List PainPoint :=
  patterns.foldl
    (fun acc pattern =>
      match classifyPattern now acc.length pattern with
      | some painPoint => acc ++ [painPoint]
      | none => acc)
    []

end Discovery

namespace ProposalGenerator

open Discovery

/-- Proposal risk level. -/
inductive RiskLevel where
  | low
  | medium
  | high
deriving DecidableEq

/-- The `predictedImpact` attachment of a proposal (and the prediction
produced by `ImpactPredictor.predict`): expected overall impact, expected
ROI and confidence.  The four-dimension breakdown and rationale carried by
the predictor's full record are omitted: no operation in scope reads
them. -/
structure ImpactPrediction where
  expectedImpact : ℚ
  expectedROI : ℚ
  confidence : ℚ
deriving DecidableEq

/-- `ProjectProposal` from `proposal-generator.ts`. -/
structure ProjectProposal where
  id : String
  title : String
  description : String
  painPoint : PainPoint
  cost : ℚ
  timeline : String
  requiredAgents : List String
  deliverables : List String
  successMetrics : List String
  expectedTimeSavings : ℚ
  automationLevel : ℚ
  riskLevel : RiskLevel
  predictedImpact : Option ImpactPrediction
deriving DecidableEq

/-- The `budget` range of a `ProposalConfig`. -/
structure Budget where
  min : ℚ
  max : ℚ
deriving DecidableEq

/-- The `BecoinTreasury` interface consumed by the generator (a treasury
snapshot rendered as plain numbers). -/
structure BecoinTreasury where
  balance : ℚ
  startCapital : ℚ
  burnRate : ℚ
  runway : ℚ
  reserved : ℚ
  availableBalance : ℚ
deriving DecidableEq

/-- `ProposalConfig` from `proposal-generator.ts`. -/
structure ProposalConfig where
  painPoint : PainPoint
  budget : Budget
  targetROI : ℚ
  treasury : BecoinTreasury
deriving DecidableEq

/-- The severity multiplier table of `estimateCost`. -/
def severityMultiplier : Severity → ℚ
  | .low => 1
  | .medium => 3/2
  | .high => 2
  | .critical => 3

/-- `ProposalGenerator.estimateCost` (lines 96–126): base cost 100 scaled by
severity, automation complexity (2 − automationPotential) and time factor
(1 + timeCost/300); then token estimate (50%), risk buffer (30%) and profit
margin (40%) are added and the total is rounded. -/
def estimateCost (painPoint : PainPoint) : ℤ :=
  let baseCost :=
    100 * severityMultiplier painPoint.severity * (2 - painPoint.automationPotential) *
      (1 + painPoint.timeCost / 300)
  jsRound (baseCost + baseCost * (1/2) + baseCost * (3/10) + baseCost * (2/5))

/-- `ProposalGenerator.estimateTimeline`: buckets of `1/automationPotential`.
In JavaScript a zero automation potential gives `Infinity`, which falls past
every bucket into the last one; that case is made explicit here. -/
def estimateTimeline (painPoint : PainPoint) : String :=
  if painPoint.automationPotential = 0 then "3-4 weeks"
  else if 1 / painPoint.automationPotential < 13/10 then "3-5 days"
  else if 1 / painPoint.automationPotential < 8/5 then "1-2 weeks"
  else if 1 / painPoint.automationPotential < 2 then "2-3 weeks"
  else "3-4 weeks"

/-- `ProposalGenerator.selectAgents`: up to two primary agents from the
category table, plus a QA agent for high or critical severity. -/
def selectAgents (painPoint : PainPoint) : List String :=
  let baseAgents :=
    match painPoint.type with
    | .repetitive_task => ["Backend-Architect", "DevOps-Automator", "Rapid-Prototyper"]
    | .recurring_error => ["Senior-Developer", "Reality-Checker", "Performance-Benchmarker"]
    | .workflow_bottleneck =>
        ["Workflow-Optimizer", "Senior-Project-Manager", "Performance-Benchmarker"]
    | .manual_process => ["Backend-Architect", "DevOps-Automator", "Workflow-Optimizer"]
  let agents := baseAgents.take 2
  if painPoint.severity = Severity.high ∨ painPoint.severity = Severity.critical then
    agents ++ ["Reality-Checker"]
  else
    agents

/-- `ProposalGenerator.generateTitle`. -/
def generateTitle (painPoint : PainPoint) : String :=
  match painPoint.type with
  | .repetitive_task => "Task Automation System"
  | .recurring_error => "Error Prevention & Recovery System"
  | .workflow_bottleneck => "Workflow Optimization Suite"
  | .manual_process => "Process Automation Framework"

/-- `ProposalGenerator.generateDescription`. -/
def generateDescription (painPoint : PainPoint) : String :=
  match painPoint.type with
  | .repetitive_task =>
    let tc := painPoint.timeCost
    s!"Automate the repetitive task identified in your workflow. This solution will handle the task automatically, saving you {tc} minutes per week and eliminating manual effort."
  | .recurring_error =>
    "Implement robust error prevention and automatic recovery mechanisms. This will eliminate the recurring errors you're experiencing and provide fail-safe fallbacks."
  | .workflow_bottleneck =>
    "Optimize the workflow bottleneck that's slowing you down. We'll streamline the process, reduce friction, and accelerate your throughput significantly."
  | .manual_process =>
    "Transform your manual process into an automated workflow. This will free up your time, reduce errors, and ensure consistent execution."

/-- `ProposalGenerator.generateDeliverables`: shared boilerplate plus
category-specific deliverables. -/
def generateDeliverables (painPoint : PainPoint) : List String :=
  ["Fully functional implementation", "Comprehensive documentation",
   "Testing and validation", "Integration guide"] ++
    match painPoint.type with
    | .repetitive_task =>
        ["Automated script/tool", "Scheduling configuration", "Error handling system"]
    | .recurring_error =>
        ["Error detection system", "Automatic recovery mechanisms", "Monitoring dashboard"]
    | .workflow_bottleneck =>
        ["Optimized workflow implementation", "Performance metrics dashboard",
         "Bottleneck elimination report"]
    | .manual_process =>
        ["Automation framework", "Process documentation", "Training materials"]

/-- `ProposalGenerator.generateSuccessMetrics`. -/
def generateSuccessMetrics (painPoint : PainPoint) : List String :=
  let tc := painPoint.timeCost
  let ap := jsRound (painPoint.automationPotential * 100)
  [s!"Time savings: {tc} min/week", s!"Automation level: {ap}%"] ++
    match painPoint.type with
    | .repetitive_task =>
        ["100% task completion rate", "Zero manual intervention required", "Error rate < 1%"]
    | .recurring_error =>
        ["90% reduction in errors", "Automatic recovery in < 5 seconds", "Zero downtime"]
    | .workflow_bottleneck =>
        ["3x throughput improvement", "50% reduction in processing time",
         "User satisfaction > 85%"]
    | .manual_process =>
        ["95% time reduction", "Consistent results every time", "Easy to use interface"]

/-- `ProposalGenerator.assessRisk`: risk score from low automation
potential, high cost and critical severity; 4 or more is high, 2 or more is
medium, else low. -/
def assessRisk (painPoint : PainPoint) (cost : ℚ) : RiskLevel :=
  let riskScore : ℕ :=
    (if painPoint.automationPotential < 3/5 then 2
     else if painPoint.automationPotential < 4/5 then 1
     else 0) +
    (if 400 < cost then 2 else if 250 < cost then 1 else 0) +
    (if painPoint.severity = Severity.critical then 1 else 0)
  if 4 ≤ riskScore then .high
  else if 2 ≤ riskScore then .medium
  else .low

/-- `ProposalGenerator.generate` (lines 52–91).  `proposalId` stands for the
generated `` `proposal-${Date.now()}` ``.  The result is `none` — a routine
business outcome, not a thrown error — when the estimated cost falls outside
the budget range or exceeds 20% of the treasury balance; otherwise the full
proposal is built. -/
def generate (proposalId : String) (config : ProposalConfig) : Option ProjectProposal :=
  if (estimateCost config.painPoint : ℚ) < config.budget.min ∨
      config.budget.max < (estimateCost config.painPoint : ℚ) then
    none
  else if config.treasury.balance * (1/5) < (estimateCost config.painPoint : ℚ) then
    none
  else
    some
      { id := proposalId
        title := generateTitle config.painPoint
        description := generateDescription config.painPoint
        painPoint := config.painPoint
        cost := (estimateCost config.painPoint : ℚ)
        timeline := estimateTimeline config.painPoint
        requiredAgents := selectAgents config.painPoint
        deliverables := generateDeliverables config.painPoint
        successMetrics := generateSuccessMetrics config.painPoint
        expectedTimeSavings := config.painPoint.timeCost
        automationLevel := config.painPoint.automationPotential
        riskLevel := assessRisk config.painPoint (estimateCost config.painPoint : ℚ)
        predictedImpact := none }

end ProposalGenerator

namespace CEODiscoverySystem

open PatternAnalyzer Discovery ProposalGenerator

/-- `DiscoverySession.status`. -/
inductive SessionStatus where
  | analyzing
  | proposing
  | negotiating
  | completed
deriving DecidableEq

/-- `DiscoverySession` from `ceo-discovery.ts`. -/
structure DiscoverySession where
  id : String
  startTime : ℤ
  patterns : List UserPattern
  painPoints : List PainPoint
  proposals : List ProjectProposal
  status : SessionStatus

/-- `CEODiscoverySystem.analyzeUserPatterns` (lines 124–136): run the
pattern analysis (already filtered by the analyzer) and filter once more by
the configured minimum confidence. -/
def analyzeUserPatterns (collected : List UserPattern) (minConfidence : ℚ) :
    List UserPattern :=
  (PatternAnalyzer.analyze collected minConfidence).filter fun p =>
    decide (minConfidence ≤ p.confidence)

/-- `CEODiscoverySystem.generateProposals` (lines 191–209): one generation
attempt per pain point, keeping the successful ones in order. -/
def generateProposals (now : ℤ) (budget : Budget) (targetROI : ℚ)
    (treasury : BecoinTreasury) (painPoints : List PainPoint) : List ProjectProposal :=
  painPoints.foldl
    (fun acc painPoint =>
      match generate s!"proposal-{now}" ⟨painPoint, budget, targetROI, treasury⟩ with
      | some proposal => acc ++ [proposal]
      | none => acc)
    []

/-- `CEODiscoverySystem.prioritizeProposals` (lines 214–229): predict the
impact of every proposal, sort by expected ROI descending (JavaScript
`sort` with comparator `b.expectedROI - a.expectedROI`, modelled by a stable
merge sort), and attach each prediction to its proposal.  The collaborator
`ImpactPredictor.predict` — a pure function of the proposal — is passed in
as `predict`. -/
def prioritizeProposals (predict : ProjectProposal → ImpactPrediction)
    (proposals : List ProjectProposal) : List ProjectProposal :=
  let predictions := proposals.map fun proposal => (proposal, predict proposal)
  let sorted :=
    predictions.mergeSort fun a b => decide (b.2.expectedROI ≤ a.2.expectedROI)
  sorted.map fun p => { p.1 with predictedImpact := some p.2 }

/-- `CEODiscoverySystem.startDiscovery` (lines 79–119), success path: analyze
patterns, identify pain points, generate proposals, prioritize them, and
mark the session completed.  Any unhandled error instead aborts the whole
call (no session is returned), so the returned session of a completed run is
exactly this value.  `now` stands for `Date.now()`. -/
def startDiscovery (predict : ProjectProposal → ImpactPrediction) (now : ℤ)
    (collected : List UserPattern) (minConfidence : ℚ) (budget : Budget)
    (targetROI : ℚ) (treasury : BecoinTreasury) : DiscoverySession :=
  let patterns := analyzeUserPatterns collected minConfidence
  let painPoints := identifyPainPoints now patterns
  let proposals := generateProposals now budget targetROI treasury painPoints
  { id := s!"discovery-{now}"
    startTime := now
    patterns := patterns
    painPoints := painPoints
    proposals := prioritizeProposals predict proposals
    status := .completed }

/-- The expected ROI attached to a prioritised proposal (0 when no
prediction is attached). -/
def attachedROI (proposal : ProjectProposal) : ℚ :=
  match proposal.predictedImpact with
  | some prediction => prediction.expectedROI
  | none => 0

end CEODiscoverySystem

namespace FeedbackLoop

open ProposalGenerator

/-- The `feedback` argument of `FeedbackLoop.collectFeedback`. -/
structure FeedbackInput where
  timeSavings : ℚ
  problemSolution : ℚ
  usability : ℚ
  sustainability : ℚ
  userSatisfaction : ℚ
  userComments : Option String
  wouldRecommend : Bool
  actualCost : ℚ
  actualTimeline : String
deriving DecidableEq

/-- `ActualImpact` from `feedback-loop.ts`. -/
structure ActualImpact where
  proposalId : String
  projectId : String
  completedAt : ℤ
  actualTimeSavings : ℚ
  actualProblemSolution : ℚ
  actualUsability : ℚ
  actualSustainability : ℚ
  actualOverallImpact : ℚ
  predictedImpact : Option ℚ
  predictionAccuracy : ℚ
  userSatisfaction : ℚ
  userComments : Option String
  wouldRecommend : Bool
  actualCost : ℚ
  actualTimeline : String
  actualROI : ℚ
deriving DecidableEq

/-- `TrainingData` from `feedback-loop.ts`. -/
structure TrainingData where
  proposal : ProjectProposal
  prediction : ImpactPrediction
  actualImpact : ActualImpact
  learningWeight : ℚ
deriving DecidableEq

/-- `FeedbackLoop.calculateActualROI`: the 0–100 time-savings score maps to
0–300 minutes/week, is converted to a six-month monetary value at 100
Becoins per hour with 4.33 weeks per month, and is divided by the actual
cost. -/
def calculateActualROI (timeSavingsScore actualCost : ℚ) : ℚ :=
  ((timeSavingsScore / 100) * 300 * (433/100)) / 60 * 100 * 6 / actualCost

/-- `FeedbackLoop.collectFeedback` (lines 76–149) with the session-store
lookup abstracted to its outcome: `proposal` is the result of
`loadProposal(proposalId)`.  Returns the recorded `ActualImpact` together
with the training example created when both the proposal and its prediction
were found (`none` otherwise).  `now` stands for `new Date()`. -/
def collectFeedback (proposalId projectId : String) (feedback : FeedbackInput)
    (proposal : Option ProjectProposal) (now : ℤ) : ActualImpact × Option TrainingData :=
  let actualOverallImpact : ℚ :=
    (jsRound ((feedback.timeSavings + feedback.problemSolution + feedback.usability +
        feedback.sustainability) / 4) : ℚ)
  let prediction := proposal.bind fun p => p.predictedImpact
  let predictionAccuracy :=
    match prediction with
    | some pred => max 0 (100 - |pred.expectedImpact - actualOverallImpact|)
    | none => 0
  let actualImpact : ActualImpact :=
    { proposalId := proposalId
      projectId := projectId
      completedAt := now
      actualTimeSavings := feedback.timeSavings
      actualProblemSolution := feedback.problemSolution
      actualUsability := feedback.usability
      actualSustainability := feedback.sustainability
      actualOverallImpact := actualOverallImpact
      predictedImpact := (prediction.map fun pred => pred.expectedImpact)
      predictionAccuracy := predictionAccuracy
      userSatisfaction := feedback.userSatisfaction
      userComments := feedback.userComments
      wouldRecommend := feedback.wouldRecommend
      actualCost := feedback.actualCost
      actualTimeline := feedback.actualTimeline
      actualROI := calculateActualROI feedback.timeSavings feedback.actualCost }
  let trainingData : Option TrainingData :=
    match proposal, prediction with
    | some prop, some pred =>
        some
          { proposal := prop
            prediction := pred
            actualImpact := actualImpact
            learningWeight := min 1 (|pred.expectedImpact - actualOverallImpact| / 50) }
    | _, _ => none
  (actualImpact, trainingData)

end FeedbackLoop

open BecoinEconomy PatternAnalyzer Discovery ProposalGenerator CEODiscoverySystem FeedbackLoop

/-! ## Treasury operation lemmas -/

lemma reservedSum_append (rs₁ rs₂ : List TreasuryReservation) :
    reservedSum (rs₁ ++ rs₂) = reservedSum rs₁ + reservedSum rs₂ := by
  simp [reservedSum, List.filter_append]

lemma reserveBudget_ok {amount : ℚ} {reason newId : String} {now : ℤ}
    {data : TreasuryFile} {r : TreasuryReservation} {data' : TreasuryFile}
    (h : reserveBudget amount reason newId now data = .ok (r, data')) :
    0 < amount ∧ amount ≤ available data ∧
    r = ⟨newId, amount, reason, .reserved, now, none, none⟩ ∧
    data' = { data with reservations := data.reservations ++ [r] } := by
  unfold reserveBudget at h
  split_ifs at h with h₁ h₂ h₃
  simp only [Except.ok.injEq, Prod.mk.injEq] at h
  obtain ⟨hr, hd⟩ := h
  subst hr
  subst hd
  push_neg at h₁ h₂
  exact ⟨h₁, h₂, rfl, rfl⟩

lemma commitReservation_ok {reservationId : String} {actualCost : Option ℚ} {txId : String}
    {now : ℤ} {data : TreasuryFile} {snap : TreasurySnapshot} {data' : TreasuryFile}
    (h : commitReservation reservationId actualCost txId now data = .ok (snap, data')) :
    ∃ reservation,
      data.reservations.find? (reservedMatch reservationId) = some reservation ∧
      actualCost.getD reservation.amount ≤ data.balance ∧
      data' = commitState reservationId (actualCost.getD reservation.amount) txId now
        reservation.reason data ∧
      snap = getSnapshot data' := by
  unfold commitReservation at h
  cases hfind : data.reservations.find? (reservedMatch reservationId) with
  | none => rw [hfind] at h; cases h
  | some reservation =>
    rw [hfind] at h
    dsimp only at h
    split_ifs at h with hlt
    simp only [Except.ok.injEq, Prod.mk.injEq] at h
    obtain ⟨hs, hd⟩ := h
    subst hd
    subst hs
    push_neg at hlt
    exact ⟨reservation, rfl, hlt, rfl, rfl⟩

lemma cancelReservation_ok {reservationId : String} {now : ℤ} {data : TreasuryFile}
    {snap : TreasurySnapshot} {data' : TreasuryFile}
    (h : cancelReservation reservationId now data = .ok (snap, data')) :
    data'.balance = data.balance ∧ data'.transactions = data.transactions := by
  unfold cancelReservation at h
  cases hfind : data.reservations.find? (reservedMatch reservationId) with
  | none => rw [hfind] at h; cases h
  | some reservation =>
    rw [hfind] at h
    simp only [Except.ok.injEq, Prod.mk.injEq] at h
    obtain ⟨-, hd⟩ := h
    rw [← hd]
    exact ⟨rfl, rfl⟩

lemma recordRevenue_ok {amount : ℚ} {description txId : String} {now : ℤ}
    {data : TreasuryFile} {snap : TreasurySnapshot} {data' : TreasuryFile}
    (h : recordRevenue amount description txId now data = .ok (snap, data')) :
    0 < amount ∧ data'.balance = data.balance + amount := by
  unfold recordRevenue at h
  split_ifs at h with h₁
  simp only [Except.ok.injEq, Prod.mk.injEq] at h
  obtain ⟨-, hd⟩ := h
  subst hd
  push_neg at h₁
  exact ⟨h₁, rfl⟩

/-! ## C1 -/

/-- The reservation created by the first step of the C1 trace. -/
def c1resA : TreasuryReservation := ⟨"c1a", 20000, "projA", .reserved, 0, none, none⟩

/-- The reservation created by the second step of the C1 trace. -/
def c1resB : TreasuryReservation := ⟨"c1b", 16000, "projB", .reserved, 1, none, none⟩

/-- Treasury state after reserving 20,000 from the bootstrapped default. -/
def c1s1 : TreasuryFile := { defaultTreasuryFile with reservations := [c1resA] }

/-- Treasury state after additionally reserving 16,000. -/
def c1s2 : TreasuryFile := { defaultTreasuryFile with reservations := [c1resA, c1resB] }

/-- Treasury state after committing the first reservation with an actual
cost of 90,000 (allowed: the only check is `actualCost ≤ balance`), while
the 16,000 reservation is still outstanding. -/
def c1s3 : TreasuryFile :=
  { balance := 10000
    startCapital := 100000
    metrics := { burnRate := 250, runway := some 40 }
    reservations := [⟨"c1a", 20000, "projA", .committed, 0, some 2, some 90000⟩, c1resB]
    transactions := [⟨"c1tx", .expense, 90000, "projA", 2, some "c1a"⟩] }

lemma c1_step1 : reserveBudget 20000 ("projA") ("c1a") 0 defaultTreasuryFile =
    .ok (c1resA, c1s1) := by
  norm_num [reserveBudget, available, reservedSum, defaultTreasuryFile, c1resA, c1s1]

lemma c1_step2 : reserveBudget 16000 ("projB") ("c1b") 1 c1s1 = .ok (c1resB, c1s2) := by
  norm_num [reserveBudget, available, reservedSum, defaultTreasuryFile, c1resA, c1resB,
    c1s1, c1s2]

lemma c1_step3 : commitReservation ("c1a") (some 90000) ("c1tx") 2 c1s2 =
    .ok (getSnapshot c1s3, c1s3) := by
  norm_num [commitReservation, commitState, reservedMatch, updateFirst, calculateRunway,
    jsRound, defaultTreasuryFile, c1resA, c1resB, c1s2, c1s3, List.find?]

/-- C1, counterexample: the state `c1s3` is reachable from the bootstrapped
default by two successful `reserveBudget` calls followed by a successful
`commitReservation` whose actual cost (90,000) exceeds the reserved amount,
yet its snapshot's available balance (0, clamped) differs from
`balance − Σ(reserved reservations)` = 10,000 − 16,000 = −6,000, which is
negative.  So the claimed invariant `available = balance − reserved ≥ 0`
fails on a reachable state. -/
theorem C1_counterexample :
    Reachable c1s3 ∧
    (getSnapshot c1s3).availableBalance = 0 ∧
    c1s3.balance - reservedSum c1s3.reservations = -6000 := by
  refine ⟨?_, ?_, ?_⟩
  · exact Reachable.commit ("c1a") (some 90000) ("c1tx") 2
      (Reachable.reserve 16000 ("projB") ("c1b") 1
        (Reachable.reserve 20000 ("projA") ("c1a") 0 Reachable.init c1_step1)
        c1_step2)
      c1_step3
  · have hcr : (ReservationStatus.committed = ReservationStatus.reserved) = False :=
      eq_false (by decide)
    simp only [getSnapshot, available, reservedSum, c1s3, c1resB, List.filter_cons,
      List.filter_nil, hcr, if_false]
    norm_num
  · have hcr : (ReservationStatus.committed = ReservationStatus.reserved) = False :=
      eq_false (by decide)
    simp only [reservedSum, c1s3, c1resB, List.filter_cons, List.filter_nil, hcr, if_false]
    norm_num

/-- C1, amended: on every reachable treasury state the snapshot satisfies
`available = max(0, balance − Σ(reservations with status reserved))`, and
this available value is ≥ 0.  (The unclamped difference itself can go
negative on reachable states, as `C1_counterexample` shows, because
`commitReservation` accepts an actual cost larger than the reserved
amount.) -/
theorem C1_available_clamped (s : TreasuryFile) (h : Reachable s) :
    (getSnapshot s).availableBalance = max 0 (s.balance - reservedSum s.reservations) ∧
    0 ≤ (getSnapshot s).availableBalance :=
  ⟨rfl, le_max_left 0 _⟩

/-- Witness for `C1_available_clamped` at the bootstrapped default state. -/
theorem C1_available_clamped_witness :
    (getSnapshot defaultTreasuryFile).availableBalance =
      max 0 (defaultTreasuryFile.balance - reservedSum defaultTreasuryFile.reservations) ∧
    0 ≤ (getSnapshot defaultTreasuryFile).availableBalance :=
  C1_available_clamped defaultTreasuryFile Reachable.init

/-! ## C2 -/

/-- C2: immediately after a successful `reserveBudget amount`, the
snapshot's reserved total grows by exactly `amount`, its available balance
shrinks by exactly `amount`, and the balance is unchanged. -/
theorem C2_reserveBudget_effect {amount : ℚ} {reason newId : String} {now : ℤ}
    {data : TreasuryFile} {r : TreasuryReservation} {data' : TreasuryFile}
    (h : reserveBudget amount reason newId now data = .ok (r, data')) :
    (getSnapshot data').reserved = (getSnapshot data).reserved + amount ∧
    (getSnapshot data').availableBalance = (getSnapshot data).availableBalance - amount ∧
    data'.balance = data.balance := by
  obtain ⟨hpos, hle, hr, hd⟩ := reserveBudget_ok h
  subst hd
  have hres : reservedSum (data.reservations ++ [r]) =
      reservedSum data.reservations + amount := by
    rw [reservedSum_append, hr]
    simp [reservedSum]
  have hBR : amount ≤ data.balance - reservedSum data.reservations := by
    rcases le_or_lt 0 (data.balance - reservedSum data.reservations) with hge | hlt
    · rwa [available, max_eq_right hge] at hle
    · rw [available, max_eq_left hlt.le] at hle
      linarith
  refine ⟨by simpa [getSnapshot] using hres, ?_, rfl⟩
  show available _ = available data - amount
  unfold available
  simp only [hres]
  rw [max_eq_right (by linarith), max_eq_right (by linarith)]
  ring

/-- The reservation created in the witness instance of C2. -/
def c2res : TreasuryReservation := ⟨"c2a", 20000, "growth", .reserved, 0, none, none⟩

/-- Treasury state of the witness instance of C2. -/
def c2s1 : TreasuryFile := { defaultTreasuryFile with reservations := [c2res] }

/-- Witness for `C2_reserveBudget_effect`: reserving 20,000 against the
bootstrapped default ledger. -/
theorem C2_reserveBudget_effect_witness :
    reserveBudget 20000 ("growth") ("c2a") 0 defaultTreasuryFile = .ok (c2res, c2s1) ∧
    ((getSnapshot c2s1).reserved = (getSnapshot defaultTreasuryFile).reserved + 20000 ∧
     (getSnapshot c2s1).availableBalance =
       (getSnapshot defaultTreasuryFile).availableBalance - 20000 ∧
     c2s1.balance = defaultTreasuryFile.balance) :=
  ⟨by norm_num [reserveBudget, available, reservedSum, defaultTreasuryFile, c2res, c2s1],
   @C2_reserveBudget_effect 20000 ("growth") ("c2a") 0 defaultTreasuryFile c2res c2s1
     (by norm_num [reserveBudget, available, reservedSum, defaultTreasuryFile, c2res, c2s1])⟩

/-! ## C3 -/

/-- The reservation created by the first C3 reservation. -/
def c3res : TreasuryReservation := ⟨"c3a", 20000, "alpha", .reserved, 0, none, none⟩

/-- Treasury state after the first C3 reservation. -/
def c3s1 : TreasuryFile := { defaultTreasuryFile with reservations := [c3res] }

/-- C3: against the bootstrapped 100,000 ledger, reserving 20,000 succeeds
(exactly 20% of the available 100,000); a second 20,000 reservation issued
without releasing the first fails with the allocation-cap error (available
is 80,000, whose 20% is 16,000), the error whose message mentions the 20%
allocation limit. -/
theorem C3_allocation_cap :
    reserveBudget 20000 ("alpha") ("c3a") 0 defaultTreasuryFile = .ok (c3res, c3s1) ∧
    reserveBudget 20000 ("beta") ("c3b") 1 c3s1 =
      .error (.allocationExceeded 20000 16000) ∧
    mentionsAllocationLimit (.allocationExceeded 20000 16000) = true := by
  refine ⟨?_, ?_, rfl⟩
  · norm_num [reserveBudget, available, reservedSum, defaultTreasuryFile, c3res, c3s1]
  · norm_num [reserveBudget, available, reservedSum, defaultTreasuryFile, c3res, c3s1]

/-! ## C4 -/

/-- The 2,500 reservation of the C4 example instance. -/
def c4resv : TreasuryReservation := ⟨"c4r", 2500, "automation", .reserved, 0, none, none⟩

/-- Treasury state of the C4 example: balance 100,000 with one outstanding
2,500 reservation and no transactions. -/
def c4data : TreasuryFile :=
  { balance := 100000
    startCapital := 100000
    metrics := { burnRate := 250, runway := some 400 }
    reservations := [c4resv]
    transactions := [] }

/-- Treasury state after committing the C4 example reservation with actual
cost 2,000. -/
def c4s' : TreasuryFile :=
  { balance := 98000
    startCapital := 100000
    metrics := { burnRate := 250, runway := some 392 }
    reservations := [⟨"c4r", 2500, "automation", .committed, 0, some 5, some 2000⟩]
    transactions := [⟨"c4tx", .expense, 2000, "automation", 5, some "c4r"⟩] }

/-- C4: committing a located `reserved` reservation with
`actualCost ≤ balance` succeeds, marks it committed with the final cost
(defaulting to the reserved amount when `actualCost` is omitted), deducts
exactly that cost from the balance, and appends exactly one expense
transaction of that amount referencing the reservation; a cost above the
balance is rejected.  The closing conjunct is the concrete example:
committing the 2,500 reservation of `c4data` with actual cost 2,000 yields
balance 98,000, reserved total 0, and the single new expense transaction of
amount 2,000. -/
theorem C4_commitReservation :
    (∀ (data : TreasuryFile) (reservationId : String) (actualCost : Option ℚ)
        (txId : String) (now : ℤ) (reservation : TreasuryReservation),
        data.reservations.find? (reservedMatch reservationId) = some reservation →
        actualCost.getD reservation.amount ≤ data.balance →
        commitReservation reservationId actualCost txId now data =
          .ok (getSnapshot (commitState reservationId (actualCost.getD reservation.amount)
                 txId now reservation.reason data),
               commitState reservationId (actualCost.getD reservation.amount) txId now
                 reservation.reason data) ∧
        (commitState reservationId (actualCost.getD reservation.amount) txId now
            reservation.reason data).balance =
          data.balance - actualCost.getD reservation.amount ∧
        (commitState reservationId (actualCost.getD reservation.amount) txId now
            reservation.reason data).reservations =
          updateFirst (reservedMatch reservationId)
            (fun r => { r with status := .committed, committedAt := some now,
                               actualCost := some (actualCost.getD reservation.amount) })
            data.reservations ∧
        (commitState reservationId (actualCost.getD reservation.amount) txId now
            reservation.reason data).transactions =
          data.transactions ++ [⟨txId, .expense, actualCost.getD reservation.amount,
            reservation.reason, now, some reservationId⟩]) ∧
    (∀ (data : TreasuryFile) (reservationId : String) (actualCost : Option ℚ)
        (txId : String) (now : ℤ) (reservation : TreasuryReservation),
        data.reservations.find? (reservedMatch reservationId) = some reservation →
        data.balance < actualCost.getD reservation.amount →
        commitReservation reservationId actualCost txId now data =
          .error .insufficientBalance) ∧
    (commitReservation ("c4r") (some 2000) ("c4tx") 5 c4data =
       .ok (getSnapshot c4s', c4s') ∧
     (getSnapshot c4s').balance = 98000 ∧
     (getSnapshot c4s').reserved = 0 ∧
     c4s'.transactions = [⟨"c4tx", .expense, 2000, "automation", 5, some "c4r"⟩]) := by
  have hcr : (ReservationStatus.committed = ReservationStatus.reserved) = False :=
    eq_false (by decide)
  refine ⟨?_, ?_, ?_, ?_, ?_, ?_⟩
  · intro data reservationId actualCost txId now reservation hfind hle
    refine ⟨?_, ?_, rfl, rfl⟩
    · unfold commitReservation
      rw [hfind]
      dsimp only
      rw [if_neg (not_lt.mpr hle)]
    · show max 0 (data.balance - actualCost.getD reservation.amount) = _
      rw [max_eq_right (by linarith)]
  · intro data reservationId actualCost txId now reservation hfind hlt
    unfold commitReservation
    rw [hfind]
    dsimp only
    rw [if_pos hlt]
  · norm_num [commitReservation, commitState, reservedMatch, updateFirst, calculateRunway,
      jsRound, c4resv, c4data, c4s', List.find?]
  · norm_num [getSnapshot, c4s']
  · simp only [getSnapshot, reservedSum, c4s', List.filter_cons, List.filter_nil, hcr,
      if_false]
    norm_num
  · rfl

/-- Witness for the universally quantified parts of `C4_commitReservation`,
at the concrete example instance (success case) and at a 200,000 cost
against the same state (rejection case). -/
theorem C4_commitReservation_witness :
    (c4data.reservations.find? (reservedMatch ("c4r")) = some c4resv ∧
     Option.getD (some 2000) c4resv.amount ≤ c4data.balance ∧
     c4data.balance < Option.getD (some 200000) c4resv.amount) ∧
    (commitReservation ("c4r") (some 2000) ("c4tx") 5 c4data =
      .ok (getSnapshot (commitState ("c4r") (Option.getD (some 2000) c4resv.amount)
             ("c4tx") 5 c4resv.reason c4data),
           commitState ("c4r") (Option.getD (some 2000) c4resv.amount) ("c4tx") 5
             c4resv.reason c4data)) ∧
    commitReservation ("c4r") (some 200000) ("c4tx") 5 c4data =
      .error .insufficientBalance := by
  have hfind : c4data.reservations.find? (reservedMatch ("c4r")) = some c4resv := by
    norm_num [c4data, c4resv, reservedMatch, List.find?]
  have hle : Option.getD (some 2000) c4resv.amount ≤ c4data.balance := by
    norm_num [c4data, c4resv]
  have hlt : c4data.balance < Option.getD (some 200000) c4resv.amount := by
    norm_num [c4data, c4resv]
  exact ⟨⟨hfind, hle, hlt⟩,
    (C4_commitReservation.1 c4data ("c4r") (some 2000) ("c4tx") 5 c4resv hfind hle).1,
    C4_commitReservation.2.1 c4data ("c4r") (some 200000) ("c4tx") 5 c4resv hfind hlt⟩

/-! ## C10 -/

/-- C10: every treasury state reachable from the bootstrapped default keeps
`balance ≥ 0`; `reserveBudget` and `cancelReservation` never change the
balance, `commitReservation` rejects any cost above the balance and clamps
the committed balance at `max(0, balance − cost)`, and `recordRevenue` only
adds strictly positive amounts. -/
theorem C10_balance_nonneg :
    (∀ s : TreasuryFile, Reachable s → 0 ≤ s.balance) ∧
    (∀ (amount : ℚ) (reason newId : String) (now : ℤ) (s : TreasuryFile)
        (r : TreasuryReservation) (s' : TreasuryFile),
        reserveBudget amount reason newId now s = .ok (r, s') → s'.balance = s.balance) ∧
    (∀ (reservationId : String) (now : ℤ) (s : TreasuryFile) (snap : TreasurySnapshot)
        (s' : TreasuryFile),
        cancelReservation reservationId now s = .ok (snap, s') → s'.balance = s.balance) ∧
    (∀ (reservationId : String) (actualCost : Option ℚ) (txId : String) (now : ℤ)
        (s : TreasuryFile) (reservation : TreasuryReservation),
        s.reservations.find? (reservedMatch reservationId) = some reservation →
        s.balance < actualCost.getD reservation.amount →
        commitReservation reservationId actualCost txId now s =
          .error .insufficientBalance) ∧
    (∀ (reservationId : String) (actualCost : Option ℚ) (txId : String) (now : ℤ)
        (s : TreasuryFile) (reservation : TreasuryReservation)
        (snap : TreasurySnapshot) (s' : TreasuryFile),
        s.reservations.find? (reservedMatch reservationId) = some reservation →
        commitReservation reservationId actualCost txId now s = .ok (snap, s') →
        s'.balance = max 0 (s.balance - actualCost.getD reservation.amount)) ∧
    (∀ (amount : ℚ) (description txId : String) (now : ℤ) (s : TreasuryFile)
        (snap : TreasurySnapshot) (s' : TreasuryFile),
        recordRevenue amount description txId now s = .ok (snap, s') →
        0 < amount ∧ s'.balance = s.balance + amount) := by
  refine ⟨?_, ?_, ?_, ?_, ?_, ?_⟩
  · intro s h
    induction h with
    | init => norm_num [defaultTreasuryFile]
    | reserve amount reason newId now _ hstep ih =>
      obtain ⟨-, -, -, hd⟩ := reserveBudget_ok hstep
      rw [hd]
      exact ih
    | commit reservationId actualCost txId now _ hstep ih =>
      obtain ⟨reservation, -, -, hd, -⟩ := commitReservation_ok hstep
      rw [hd]
      exact le_max_left 0 _
    | cancel reservationId now _ hstep ih =>
      rw [(cancelReservation_ok hstep).1]
      exact ih
    | revenue amount description txId now _ hstep ih =>
      obtain ⟨hpos, hbal⟩ := recordRevenue_ok hstep
      rw [hbal]
      linarith
  · intro amount reason newId now s r s' h
    rw [(reserveBudget_ok h).2.2.2]
  · intro reservationId now s snap s' h
    exact (cancelReservation_ok h).1
  · intro reservationId actualCost txId now s reservation hfind hlt
    unfold commitReservation
    rw [hfind]
    dsimp only
    rw [if_pos hlt]
  · intro reservationId actualCost txId now s reservation snap s' hfind h
    obtain ⟨reservation', hfind', -, hd, -⟩ := commitReservation_ok h
    rw [hfind'] at hfind
    cases hfind
    rw [hd]
    rfl
  · intro amount description txId now s snap s' h
    exact recordRevenue_ok h

/-! ## C5 -/

lemma jsRound_eq {x : ℚ} {n : ℤ} (h₁ : (n : ℚ) ≤ x + 1/2) (h₂ : x + 1/2 < n + 1) :
    jsRound x = n := by
  unfold jsRound
  exact Int.floor_eq_iff.mpr ⟨h₁, by exact_mod_cast h₂⟩

/-- The example pain point of C5: severity high, automation potential 0.9,
time cost 120 minutes/week. -/
def c5pain : PainPoint :=
  { id := "c5pp"
    type := .repetitive_task
    description := "repeat"
    severity := .high
    timeCost := 120
    automationPotential := 9/10
    relatedPatterns := [] }

/-- C5: for every pain point the synthesizer's cost equals
`round(100 × severityMult × (2 − automationPotential) × (1 + timeCost/300) × 2.2)`
(the three surcharges 50% + 30% + 40% collapse to the single factor
2.2 = 11/5), with severityMult 1 / 1.5 / 2 / 3 for low / medium / high /
critical; in particular the cost for severity high, automation potential
0.9 and time cost 120 is 678. -/
theorem C5_estimateCost_formula :
    (∀ painPoint : PainPoint,
        estimateCost painPoint =
          jsRound (100 * severityMultiplier painPoint.severity *
            (2 - painPoint.automationPotential) * (1 + painPoint.timeCost / 300) *
            (11/5))) ∧
    severityMultiplier .low = 1 ∧ severityMultiplier .medium = 3/2 ∧
    severityMultiplier .high = 2 ∧ severityMultiplier .critical = 3 ∧
    estimateCost c5pain = 678 := by
  refine ⟨?_, rfl, rfl, rfl, rfl, ?_⟩
  · intro painPoint
    unfold estimateCost
    dsimp only
    congr 1
    ring
  · unfold estimateCost
    dsimp only
    exact jsRound_eq (by norm_num [severityMultiplier, c5pain])
      (by norm_num [severityMultiplier, c5pain])

/-! ## C6 -/

/-- C6: `ProposalGenerator.generate` returns an absent result (it is a total
function of its inputs, so it never throws) exactly when the estimated cost
is outside `[budget.min, budget.max]` or exceeds 20% of the treasury
balance; otherwise it returns a proposal. -/
theorem C6_generate_gating (proposalId : String) (config : ProposalConfig) :
    generate proposalId config = none ↔
      ((estimateCost config.painPoint : ℚ) < config.budget.min ∨
       config.budget.max < (estimateCost config.painPoint : ℚ) ∨
       config.treasury.balance * (1/5) < (estimateCost config.painPoint : ℚ)) := by
  unfold generate
  split_ifs with h₁ h₂
  · simp only [true_iff]
    exact h₁.imp id Or.inl
  · simp only [true_iff]
    exact Or.inr (Or.inr h₂)
  · push_neg at h₁ h₂
    constructor
    · intro hsome
      cases hsome
    · intro hdisj
      rcases hdisj with h | h | h
      · linarith [h₁.1]
      · linarith [h₁.2]
      · linarith

/-! ## C7 -/

/-- The pain point behind the C7 example proposal. -/
def c7pain : PainPoint :=
  { id := "c7pp"
    type := .repetitive_task
    description := "repeat"
    severity := .high
    timeCost := 120
    automationPotential := 9/10
    relatedPatterns := [] }

/-- The prediction attached to the C7 example proposal: expected overall
impact 87. -/
def c7pred : ImpactPrediction := ⟨87, 21/5, 7/10⟩

/-- The originating proposal of the C7 example, carrying the prediction. -/
def c7proposal : ProjectProposal :=
  { id := "c7p"
    title := "Task Automation System"
    description := "automate"
    painPoint := c7pain
    cost := 678
    timeline := "1-2 weeks"
    requiredAgents := ["Backend-Architect", "DevOps-Automator", "Reality-Checker"]
    deliverables := []
    successMetrics := []
    expectedTimeSavings := 120
    automationLevel := 9/10
    riskLevel := .medium
    predictedImpact := some c7pred }

/-- The raw feedback scores of the C7 example: 85, 90, 90, 90, averaging
88.75. -/
def c7feedback : FeedbackInput :=
  { timeSavings := 85
    problemSolution := 90
    usability := 90
    sustainability := 90
    userSatisfaction := 89
    userComments := none
    wouldRecommend := true
    actualCost := 280
    actualTimeline := "10 days" }

lemma c7_round : jsRound ((c7feedback.timeSavings + c7feedback.problemSolution +
    c7feedback.usability + c7feedback.sustainability) / 4) = 89 :=
  jsRound_eq (by norm_num [c7feedback]) (by norm_num [c7feedback])

lemma c7_abs : |(87 : ℚ) - 89| = 2 := by
  rw [abs_of_nonpos (by norm_num)]
  norm_num

/-- C7, counterexample: with predicted overall impact 87 and raw scores
85/90/90/90 (average 88.75), `collectFeedback` records prediction accuracy
98, not the claimed 98.25: the code first rounds the raw average to the
integer actual overall impact 89 (`Math.round(88.75)`), so the recorded
accuracy is `max(0, 100 − |87 − 89|) = 98`. -/
theorem C7_counterexample :
    (c7feedback.timeSavings + c7feedback.problemSolution + c7feedback.usability +
        c7feedback.sustainability) / 4 = (88.75 : ℚ) ∧
    c7pred.expectedImpact = 87 ∧
    (collectFeedback ("c7p") ("c7proj") c7feedback (some c7proposal) 0).1.predictionAccuracy
      = 98 ∧
    (98 : ℚ) ≠ 98.25 := by
  refine ⟨by norm_num [c7feedback], rfl, ?_, by norm_num⟩
  unfold collectFeedback
  dsimp only
  rw [show (some c7proposal).bind (fun p => p.predictedImpact) = some c7pred from rfl]
  dsimp only
  rw [c7_round]
  have hexp : c7pred.expectedImpact = (87 : ℚ) := rfl
  rw [hexp]
  push_cast
  rw [c7_abs]
  norm_num

/-- C7, amended: the recorded prediction accuracy equals
`max(0, 100 − |predicted overall impact − actual overall impact|)` where the
actual overall impact is the rounded raw-score average, and it equals 0 when
no prediction exists; in particular, with predicted overall impact 87 and
raw scores averaging 88.75 (rounded to 89), the recorded accuracy is 98. -/
theorem C7_prediction_accuracy :
    (∀ (proposalId projectId : String) (feedback : FeedbackInput)
        (proposal : Option ProjectProposal) (now : ℤ) (pred : ImpactPrediction),
        (proposal.bind fun p => p.predictedImpact) = some pred →
        (collectFeedback proposalId projectId feedback proposal now).1.predictionAccuracy =
          max 0 (100 - |pred.expectedImpact -
            (jsRound ((feedback.timeSavings + feedback.problemSolution +
              feedback.usability + feedback.sustainability) / 4) : ℚ)|)) ∧
    (∀ (proposalId projectId : String) (feedback : FeedbackInput)
        (proposal : Option ProjectProposal) (now : ℤ),
        (proposal.bind fun p => p.predictedImpact) = none →
        (collectFeedback proposalId projectId feedback proposal now).1.predictionAccuracy
          = 0) ∧
    (collectFeedback ("c7p") ("c7proj") c7feedback (some c7proposal) 0).1.predictionAccuracy
      = 98 := by
  refine ⟨?_, ?_, C7_counterexample.2.2.1⟩
  · intro proposalId projectId feedback proposal now pred h
    unfold collectFeedback
    dsimp only
    rw [h]
  · intro proposalId projectId feedback proposal now h
    unfold collectFeedback
    dsimp only
    rw [h]

/-- Witness for `C7_prediction_accuracy`, discharging the
prediction-exists and no-prediction hypotheses at concrete inputs. -/
theorem C7_prediction_accuracy_witness :
    ((some c7proposal).bind (fun p => p.predictedImpact) = some c7pred ∧
     (collectFeedback ("c7p") ("c7proj") c7feedback (some c7proposal) 0).1.predictionAccuracy =
       max 0 (100 - |c7pred.expectedImpact -
         (jsRound ((c7feedback.timeSavings + c7feedback.problemSolution +
           c7feedback.usability + c7feedback.sustainability) / 4) : ℚ)|)) ∧
    ((none : Option ProjectProposal).bind (fun p => p.predictedImpact) = none ∧
     (collectFeedback ("c7p") ("c7proj") c7feedback none 0).1.predictionAccuracy = 0) :=
  ⟨⟨rfl, C7_prediction_accuracy.1 ("c7p") ("c7proj") c7feedback (some c7proposal) 0
      c7pred rfl⟩,
   ⟨rfl, C7_prediction_accuracy.2.1 ("c7p") ("c7proj") c7feedback none 0 rfl⟩⟩

/-! ## C8 -/

lemma keyOf_mergeCombine (q p : UserPattern) : keyOf (mergeCombine q p) = keyOf q := rfl

lemma keyOf_foldl_mergeCombine (rest : List UserPattern) (p : UserPattern) :
    keyOf (rest.foldl mergeCombine p) = keyOf p := by
  induction rest generalizing p with
  | nil => rfl
  | cons r rest ih => rw [List.foldl_cons, ih, keyOf_mergeCombine]

lemma filter_key_map (f : UserPattern → UserPattern)
    (hf : ∀ q, keyOf (f q) = keyOf q) (l : List UserPattern) (k : PatternType × String) :
    (l.map f).filter (fun q => decide (keyOf q = k)) =
      (l.filter fun q => decide (keyOf q = k)).map f := by
  induction l with
  | nil => rfl
  | cons x xs ih =>
    simp only [List.map_cons, List.filter_cons, hf]
    by_cases hx : keyOf x = k
    · simp [hx, ih]
    · simp [hx, ih]

lemma map_update_eq_self (k kp : PatternType × String) (hne : k ≠ kp)
    (g : UserPattern → UserPattern) (l : List UserPattern)
    (hl : ∀ q ∈ l, keyOf q = k) :
    (l.map fun q => if keyOf q = kp then g q else q) = l := by
  induction l with
  | nil => rfl
  | cons x xs ih =>
    have hx : keyOf x = k := hl x (by simp)
    have hxkp : ¬(keyOf x = kp) := by
      rw [hx]
      exact hne
    simp only [List.map_cons, if_neg hxkp]
    rw [ih fun q hq => hl q (by simp [hq])]

lemma mem_filter_key {l : List UserPattern} {k : PatternType × String} {q : UserPattern}
    (h : q ∈ l.filter fun q => decide (keyOf q = k)) : keyOf q = k := by
  simpa using List.of_mem_filter h

lemma mergeGroup_eq_nil_iff (g : List UserPattern) : mergeGroup g = [] ↔ g = [] := by
  cases g <;> simp [mergeGroup]

lemma mergeGroup_nil : mergeGroup [] = [] := rfl

lemma mergeGroup_cons (p : UserPattern) (rest : List UserPattern) :
    mergeGroup (p :: rest) = [rest.foldl mergeCombine p] := rfl

lemma keyOf_update (p q : UserPattern) :
    keyOf (if keyOf q = keyOf p then mergeCombine q p else q) = keyOf q := by
  by_cases hq : keyOf q = keyOf p
  · rw [if_pos hq, keyOf_mergeCombine]
  · rw [if_neg hq]

/-- The central merge lemma: restricted to any one key, `mergePatterns`
computes exactly the `mergeCombine`-fold of that key's group of input
patterns, in input order. -/
lemma mergePatterns_filter (ps : List UserPattern) (k : PatternType × String) :
    ((mergePatterns ps).filter fun q => decide (keyOf q = k)) =
      mergeGroup (ps.filter fun q => decide (keyOf q = k)) := by
  induction ps using List.reverseRecOn with
  | nil => rfl
  | append_singleton ps p ih =>
    have hstep : mergePatterns (ps ++ [p]) = mergeStep (mergePatterns ps) p := by
      rw [mergePatterns, mergePatterns, List.foldl_append, List.foldl_cons, List.foldl_nil]
    rw [hstep, List.filter_append, mergeStep]
    by_cases hk : keyOf p = k
    · -- the incoming pattern belongs to the key group
      have hp_filter : (List.filter (fun q => decide (keyOf q = k)) [p]) = [p] := by
        simp [hk]
      rw [hp_filter]
      by_cases hany : (mergePatterns ps).any fun q => decide (keyOf q = keyOf p)
      · rw [if_pos hany]
        obtain ⟨q₀, hq₀m, hq₀k⟩ : ∃ q₀ ∈ mergePatterns ps, keyOf q₀ = keyOf p := by
          simpa using hany
        have hGne : ((ps.filter fun q => decide (keyOf q = k)) ≠ []) := by
          intro hnil
          have hmem : q₀ ∈ ((mergePatterns ps).filter fun q => decide (keyOf q = k)) :=
            List.mem_filter.mpr ⟨hq₀m, by simp [hq₀k, hk]⟩
          rw [ih, hnil, mergeGroup_nil] at hmem
          cases hmem
        obtain ⟨h₀, t₀, hG⟩ := List.exists_cons_of_ne_nil hGne
        have hh₀ : keyOf h₀ = k := by
          apply mem_filter_key (l := ps) (k := k)
          rw [hG]
          exact List.mem_cons_self h₀ t₀
        have hm : keyOf (t₀.foldl mergeCombine h₀) = keyOf p := by
          rw [keyOf_foldl_mergeCombine, hh₀, hk]
        rw [filter_key_map _ (keyOf_update p), ih, hG, mergeGroup_cons, List.cons_append,
          mergeGroup_cons, List.foldl_append, List.foldl_cons, List.foldl_nil,
          List.map_cons, List.map_nil, if_pos hm]
      · rw [if_neg hany]
        have hGnil : ((ps.filter fun q => decide (keyOf q = k)) = []) := by
          by_contra hne
          obtain ⟨h₀, t₀, hG⟩ := List.exists_cons_of_ne_nil hne
          have hmem : (t₀.foldl mergeCombine h₀) ∈
              ((mergePatterns ps).filter fun q => decide (keyOf q = k)) := by
            rw [ih, hG, mergeGroup_cons]
            exact List.mem_singleton.mpr rfl
          apply hany
          refine List.any_eq_true.mpr ⟨_, List.mem_of_mem_filter hmem, ?_⟩
          simp [mem_filter_key hmem, hk]
        rw [List.filter_append, ih, hGnil, hp_filter]
        simp [mergeGroup_nil, mergeGroup_cons]
    · -- the incoming pattern belongs to a different key group
      have hp_filter : (List.filter (fun q => decide (keyOf q = k)) [p]) = [] := by
        simp [hk]
      rw [hp_filter, List.append_nil]
      by_cases hany : (mergePatterns ps).any fun q => decide (keyOf q = keyOf p)
      · rw [if_pos hany, filter_key_map _ (keyOf_update p),
          map_update_eq_self k (keyOf p) (fun hkk => hk hkk.symm) _ _
            (fun q hq => mem_filter_key hq), ih]
      · rw [if_neg hany, List.filter_append, hp_filter, List.append_nil, ih]

lemma foldl_mergeCombine_frequency (rest : List UserPattern) (p : UserPattern) :
    (rest.foldl mergeCombine p).frequency =
      p.frequency + (rest.map fun x => x.frequency).sum := by
  induction rest generalizing p with
  | nil => simp
  | cons r rest ih =>
    rw [List.foldl_cons, ih, List.map_cons, List.sum_cons]
    show p.frequency + r.frequency + _ = _
    ring

lemma foldl_mergeCombine_timeSpent (rest : List UserPattern) (p : UserPattern) :
    (rest.foldl mergeCombine p).timeSpent =
      p.timeSpent + (rest.map fun x => x.timeSpent).sum := by
  induction rest generalizing p with
  | nil => simp
  | cons r rest ih =>
    rw [List.foldl_cons, ih, List.map_cons, List.sum_cons]
    show p.timeSpent + r.timeSpent + _ = _
    ring

lemma foldl_mergeCombine_confidence (rest : List UserPattern) (p : UserPattern) :
    (rest.foldl mergeCombine p).confidence =
      (rest.map fun x => x.confidence).foldl max p.confidence := by
  induction rest generalizing p with
  | nil => rfl
  | cons r rest ih => rw [List.foldl_cons, ih, List.map_cons, List.foldl_cons]; rfl

lemma le_foldl_max (l : List ℚ) (a : ℚ) : a ≤ l.foldl max a := by
  induction l generalizing a with
  | nil => exact le_refl a
  | cons x xs ih => exact le_trans (le_max_left a x) (ih (max a x))

lemma mem_le_foldl_max (l : List ℚ) : ∀ a x : ℚ, x ∈ l → x ≤ l.foldl max a := by
  induction l with
  | nil => intro a x hx; cases hx
  | cons y ys ih =>
    intro a x hx
    rcases List.mem_cons.mp hx with rfl | hx'
    · exact le_trans (le_max_right a x) (le_foldl_max ys (max a x))
    · exact ih (max a y) x hx'

lemma foldl_max_mem (l : List ℚ) (a : ℚ) : l.foldl max a = a ∨ l.foldl max a ∈ l := by
  induction l generalizing a with
  | nil => exact Or.inl rfl
  | cons x xs ih =>
    rw [List.foldl_cons]
    rcases ih (max a x) with heq | hmem
    · rcases max_choice a x with hax | hax
      · exact Or.inl (by rw [heq, hax])
      · exact Or.inr (by rw [heq, hax]; exact List.mem_cons_self x xs)
    · exact Or.inr (List.mem_cons_of_mem x hmem)

lemma foldl_mergeCombine_lastSeen (rest : List UserPattern) (p : UserPattern) :
    ∃ x, (p :: rest).getLast? = some x ∧
      (rest.foldl mergeCombine p).lastSeen = x.lastSeen := by
  induction rest generalizing p with
  | nil => exact ⟨p, rfl, rfl⟩
  | cons r rs ih =>
    cases rs with
    | nil => exact ⟨r, by simp, rfl⟩
    | cons y ys =>
      obtain ⟨x, hx₁, hx₂⟩ := ih (mergeCombine p r)
      rw [List.getLast?_cons_cons] at hx₁
      refine ⟨x, ?_, ?_⟩
      · rw [List.getLast?_cons_cons, List.getLast?_cons_cons]
        exact hx₁
      · rw [List.foldl_cons]
        exact hx₂

/-- First C8 example pattern: last seen at time 10. -/
def c8p1 : UserPattern :=
  { id := "c8a"
    type := .repetitive
    action := "build"
    frequency := 3
    timeSpent := 6
    confidence := 1/2
    context := []
    firstSeen := 0
    lastSeen := 10 }

/-- Second C8 example pattern, same key as the first but last seen at the
earlier time 5. -/
def c8p2 : UserPattern :=
  { id := "c8b"
    type := .repetitive
    action := "build"
    frequency := 4
    timeSpent := 8
    confidence := 7/10
    context := []
    firstSeen := 1
    lastSeen := 5 }

/-- What merging the two C8 example patterns yields. -/
def c8merged : UserPattern :=
  { id := "c8a"
    type := .repetitive
    action := "build"
    frequency := 7
    timeSpent := 14
    confidence := 7/10
    context := []
    firstSeen := 0
    lastSeen := 5 }

lemma c8_merge_eval : mergePatterns [c8p1, c8p2] = [c8merged] := by
  norm_num [mergePatterns, mergeStep, mergeCombine, keyOf, c8p1, c8p2, c8merged,
    List.foldl_cons, List.foldl_nil, List.any_cons, List.any_nil]

/-- C8, counterexample: merging two same-key patterns whose input order is
not chronological (last seen 10, then last seen 5) records last-seen 5 —
the incoming pattern's timestamp — not the group's latest (maximal)
timestamp 10, refuting the claim's last-seen clause. -/
theorem C8_counterexample :
    keyOf c8p1 = keyOf c8p2 ∧
    (mergePatterns [c8p1, c8p2]).map (fun q => q.lastSeen) = [5] ∧
    c8p1.lastSeen = 10 ∧ (5 : ℤ) < 10 := by
  refine ⟨rfl, ?_, rfl, by norm_num⟩
  rw [c8_merge_eval]
  rfl

/-- C8, amended: `mergePatterns` groups the input patterns by
`(category, description)`; within each group the merged pattern's frequency
and time cost are the sums over the group and its confidence is the maximum
observed in the group, while its last-seen equals the last-seen of the
group's **last pattern in input order** (not the maximal timestamp); the
merged set is then filtered to `confidence ≥ minConfidence` by `analyze`. -/
theorem C8_merge_and_filter :
    (∀ (patterns : List UserPattern) (q : UserPattern), q ∈ mergePatterns patterns →
      (q.frequency = ((patterns.filter fun p => decide (keyOf p = keyOf q)).map
          fun p => p.frequency).sum ∧
       q.timeSpent = ((patterns.filter fun p => decide (keyOf p = keyOf q)).map
          fun p => p.timeSpent).sum ∧
       ((∀ x ∈ patterns.filter fun p => decide (keyOf p = keyOf q),
           x.confidence ≤ q.confidence) ∧
        (∃ x ∈ patterns.filter fun p => decide (keyOf p = keyOf q),
           q.confidence = x.confidence)) ∧
       (∃ x, (patterns.filter fun p => decide (keyOf p = keyOf q)).getLast? = some x ∧
          q.lastSeen = x.lastSeen))) ∧
    (∀ (collected : List UserPattern) (minConfidence : ℚ) (q : UserPattern),
        q ∈ PatternAnalyzer.analyze collected minConfidence ↔
          q ∈ mergePatterns collected ∧ minConfidence ≤ q.confidence) := by
  constructor
  · intro patterns q hq
    have hqf : q ∈ ((mergePatterns patterns).filter fun p => decide (keyOf p = keyOf q)) :=
      List.mem_filter.mpr ⟨hq, by simp⟩
    rw [mergePatterns_filter] at hqf
    cases hG : (patterns.filter fun p => decide (keyOf p = keyOf q)) with
    | nil =>
      rw [hG, mergeGroup_nil] at hqf
      cases hqf
    | cons h₀ t₀ =>
      rw [hG, mergeGroup_cons, List.mem_singleton] at hqf
      subst hqf
      refine ⟨?_, ?_, ⟨?_, ?_⟩, ?_⟩
      · rw [foldl_mergeCombine_frequency, List.map_cons, List.sum_cons]
      · rw [foldl_mergeCombine_timeSpent, List.map_cons, List.sum_cons]
      · intro x hx
        rw [foldl_mergeCombine_confidence]
        rcases List.mem_cons.mp hx with rfl | hx'
        · exact le_foldl_max _ _
        · exact mem_le_foldl_max _ _ _ (List.mem_map_of_mem (fun y => y.confidence) hx')
      · rw [foldl_mergeCombine_confidence]
        rcases foldl_max_mem (t₀.map fun y => y.confidence) h₀.confidence with heq | hmem
        · exact ⟨h₀, List.mem_cons_self h₀ t₀, heq⟩
        · obtain ⟨y, hy, hyc⟩ := List.mem_map.mp hmem
          exact ⟨y, List.mem_cons_of_mem h₀ hy, hyc.symm⟩
      · exact foldl_mergeCombine_lastSeen t₀ h₀
  · intro collected minConfidence q
    simp [PatternAnalyzer.analyze, List.mem_filter]

/-- Witness for `C8_merge_and_filter`, discharging the membership and
analyze hypotheses on the two-pattern example group. -/
theorem C8_merge_and_filter_witness :
    c8merged ∈ mergePatterns [c8p1, c8p2] ∧
    (c8merged.frequency = (([c8p1, c8p2].filter fun p => decide (keyOf p = keyOf c8merged)).map
        fun p => p.frequency).sum ∧
     c8merged.timeSpent = (([c8p1, c8p2].filter fun p => decide (keyOf p = keyOf c8merged)).map
        fun p => p.timeSpent).sum ∧
     ((∀ x ∈ [c8p1, c8p2].filter fun p => decide (keyOf p = keyOf c8merged),
         x.confidence ≤ c8merged.confidence) ∧
      (∃ x ∈ [c8p1, c8p2].filter fun p => decide (keyOf p = keyOf c8merged),
         c8merged.confidence = x.confidence)) ∧
     (∃ x, ([c8p1, c8p2].filter fun p => decide (keyOf p = keyOf c8merged)).getLast? = some x ∧
        c8merged.lastSeen = x.lastSeen)) :=
  ⟨by rw [c8_merge_eval]; exact List.mem_singleton.mpr rfl,
   C8_merge_and_filter.1 [c8p1, c8p2] c8merged
     (by rw [c8_merge_eval]; exact List.mem_singleton.mpr rfl)⟩

/-! ## C9 -/

/-- C9: every discovery run that completes without an unhandled error
returns a session with status `completed`, every proposal in the session
carries an attached impact prediction, and the proposals are ordered
descending by their attached prediction's expected ROI.  The collaborator
`ImpactPredictor.predict` — per spec §4.4 a pure, deterministic function of
the proposal — is universally quantified as `predict`, so the property
holds whatever scores the forecaster produces. -/
theorem C9_discovery_session (predict : ProjectProposal → ImpactPrediction) (now : ℤ)
    (collected : List UserPattern) (minConfidence : ℚ) (budget : Budget) (targetROI : ℚ)
    (treasury : BecoinTreasury) :
    (startDiscovery predict now collected minConfidence budget targetROI treasury).status =
      SessionStatus.completed ∧
    (∀ proposal ∈ (startDiscovery predict now collected minConfidence budget targetROI
        treasury).proposals, proposal.predictedImpact.isSome = true) ∧
    List.Pairwise (fun a b => attachedROI b ≤ attachedROI a)
      (startDiscovery predict now collected minConfidence budget targetROI
        treasury).proposals := by
  have htrans : ∀ a b c : ProjectProposal × ImpactPrediction,
      decide (b.2.expectedROI ≤ a.2.expectedROI) = true →
      decide (c.2.expectedROI ≤ b.2.expectedROI) = true →
      decide (c.2.expectedROI ≤ a.2.expectedROI) = true := by
    intro a b c hab hbc
    simp only [decide_eq_true_eq] at hab hbc ⊢
    exact le_trans hbc hab
  have htotal : ∀ a b : ProjectProposal × ImpactPrediction,
      (decide (b.2.expectedROI ≤ a.2.expectedROI) ||
        decide (a.2.expectedROI ≤ b.2.expectedROI)) = true := by
    intro a b
    simp only [Bool.or_eq_true, decide_eq_true_eq]
    exact le_total _ _
  refine ⟨rfl, ?_, ?_⟩
  · intro proposal hp
    obtain ⟨pair, -, hpair⟩ := List.mem_map.mp hp
    rw [← hpair]
    rfl
  · have hpw := List.sorted_mergeSort htrans htotal
      ((generateProposals now budget targetROI treasury
        (identifyPainPoints now (analyzeUserPatterns collected minConfidence))).map
          fun proposal => (proposal, predict proposal))
    show List.Pairwise _ (List.map _ (List.mergeSort _ _))
    refine List.Pairwise.map _ ?_ hpw
    intro a b hab
    simp only [decide_eq_true_eq] at hab
    exact hab

/-- Witness for `C10_balance_nonneg`: the bootstrapped default state is
reachable and its balance is non-negative; the C4 example instances satisfy
the operation-level clauses. -/
theorem C10_balance_nonneg_witness :
    (0 : ℚ) ≤ defaultTreasuryFile.balance ∧
    commitReservation ("c4r") (some 200000) ("c4tx") 5 c4data =
      .error .insufficientBalance :=
  ⟨C10_balance_nonneg.1 defaultTreasuryFile Reachable.init,
   C10_balance_nonneg.2.2.2.1 ("c4r") (some 200000) ("c4tx") 5 c4data c4resv
     (by norm_num [c4data, c4resv, reservedMatch, List.find?])
     (by norm_num [c4data, c4resv])⟩

